import Mathlib

/-!
Verification of the BAUKLANK audio-stretch control clients.

This file is a shallow embedding of the browser control clients of the
repository:

* `src/app/multi/app.mjs` — the multi-engine client (engine slots `A`/`B`),
  with its per-engine `ControlValues`/`ConfigValues`, the
  `applyIncomingSet` entry point, `controlsChanged` / `configChanged`
  emissions to the Signalsmith stretch node, and the websocket `set`
  message dispatch.
* `src/app/app.mjs` — the single-engine client, with its reconnect
  backoff state machine (`scheduleReconnect`) and the debounced
  `configChanged`.

JavaScript numbers are modelled as rationals (`ℚ`); stored state is always
a finite number in the source (every store path either guards with
`Number.isFinite` or clamps a finite fallback), so values in the state are
plain `ℚ` and the `toFiniteNumber(x, fallback)` guard on already-stored
values is the identity.  Incoming wire values, which can be arbitrary
JSON, are modelled by `JSValue`.
-/

namespace Bauklank

/-- JS `Math.round`: round half toward positive infinity,
`Math.round(x) = ⌊x + 0.5⌋`. -/
def jsRound (q : ℚ) : ℤ := Int.floor (q + 1/2)

/-- `src/app/multi/app.mjs` `clamp(n, min, max) = Math.max(min, Math.min(max, n))`. -/
def clamp (n lo hi : ℚ) : ℚ := max lo (min hi n)

/-- One decimal digit of a JS numeric string. -/
def decDigit? (c : Char) : Option ℕ :=
  if c.isDigit then some (c.toNat - 48) else none

/-- Digit run of a JS numeric string; `none` when empty or non-digits occur. -/
def natOfDigits? : List Char → Option ℕ
  | [] => none
  | cs => cs.foldlM (fun acc c => (decDigit? c).map (fun d => acc * 10 + d)) 0

/-- ASCII whitespace stripped by JS before numeric string conversion. -/
def isSpaceChar (c : Char) : Bool :=
  c = ' ' ∨ c = '\t' ∨ c = '\n' ∨ c = '\r'

/-- Leading/trailing whitespace removal on a character list. -/
def trimChars (cs : List Char) : List Char :=
  ((cs.dropWhile isSpaceChar).reverse.dropWhile isSpaceChar).reverse

/-- Unsigned decimal literal with at most one dot (`"12"`, `"12."`,
`".5"`, `"3.5"`); `none` for anything else. -/
def parseUnsigned? (cs : List Char) : Option ℚ :=
  let ip := cs.takeWhile (fun c => c ≠ '.')
  let rest := cs.dropWhile (fun c => c ≠ '.')
  match rest with
  | [] => (natOfDigits? ip).map (fun n => (n : ℚ))
  | _ :: frac =>
    if frac.contains '.' then none
    else if ip = [] ∧ frac = [] then none
    else do
      let ipn ← if ip = [] then some 0 else natOfDigits? ip
      let fpn ← if frac = [] then some 0 else natOfDigits? frac
      pure ((ipn : ℚ) + (fpn : ℚ) / 10 ^ frac.length)

/-- Models JS `Number(s)` for a string `s`, restricted to plain decimal
literals (optional sign, optional fractional part); the empty/whitespace
string coerces to `0` as in JS, anything else (`"abc"`, `"."`, hex,
exponents) is `NaN`, i.e. `none`. -/
def strToNum? (s : String) : Option ℚ :=
  match trimChars s.data with
  | [] => some 0
  | '-' :: rest => (parseUnsigned? rest).map (fun q => -q)
  | '+' :: rest => parseUnsigned? rest
  | t => parseUnsigned? t

/-- An incoming JSON/JS value on the wire: a finite number, a non-finite
number (`NaN`/`±Infinity`), a string, or a boolean. -/
inductive JSValue where
  | num (q : ℚ)
  | nanV
  | str (s : String)
  | boolV (b : Bool)
deriving DecidableEq, Repr

/-- JS coercion to a *finite* number: `typeof v === 'number' ? v : Number(v)`
followed by the `Number.isFinite` test; `none` means not finite. -/
def jsToNum? : JSValue → Option ℚ
  | .num q => some q
  | .nanV => none
  | .str s => strToNum? s
  | .boolV b => some (if b then 1 else 0)

/-- `toFiniteNumber(value, fallback)` from both clients. -/
def toFiniteNumber (v : JSValue) (fallback : ℚ) : ℚ :=
  (jsToNum? v).getD fallback

/-- JS truthiness (`!!value`). -/
def truthy : JSValue → Bool
  | .num q => decide (q ≠ 0)
  | .nanV => false
  | .str s => decide (s ≠ "")
  | .boolV b => b

/-! ## Multi-engine client data model (`src/app/multi/app.mjs`) -/

/-- Per-slot `controlValues` of the multi-engine client
(`createEngine`, lines 119–135). -/
structure ControlValues where
  volume : ℚ
  pan : ℚ
  active : Bool
  rate : ℚ
  semitones : ℚ
  tonalityHz : ℚ
  formantSemitones : ℚ
  formantCompensation : Bool
  formantBaseHz : ℚ
  loopStart : ℚ
  loopEnd : ℚ
deriving DecidableEq, Repr

/-- Per-slot `configValues` (`createEngine`, lines 137–143). -/
structure ConfigValues where
  blockMs : ℚ
  overlap : ℚ
  splitComputation : Bool
deriving DecidableEq, Repr

/-- `controlDefaults` of `createEngine`: volume 0.10, pan −1 for slot `A`,
+1 for slot `B`, 0 otherwise, rate 0.001, tonalityHz 16000,
formantBaseHz 200, loop bounds 1. -/
def controlDefaults (engineId : String) : ControlValues where
  volume := 1/10
  pan := if engineId = "A" then -1 else if engineId = "B" then 1 else 0
  active := true
  rate := 1/1000
  semitones := 0
  tonalityHz := 16000
  formantSemitones := 0
  formantCompensation := false
  formantBaseHz := 200
  loopStart := 1
  loopEnd := 1

/-- `configDefaults` of `createEngine`: blockMs 200, overlap 1.0,
splitComputation true. -/
def configDefaults : ConfigValues where
  blockMs := 200
  overlap := 1
  splitComputation := true

/-- The state of one engine slot that the control logic touches:
`engine.stretch` is abstracted to whether a stretch node is loaded. -/
structure Engine where
  id : String
  audioDuration : ℚ
  stretchLoaded : Bool
  controlValues : ControlValues
  configValues : ConfigValues
deriving DecidableEq, Repr

/-- `createEngine(audioContext, mixNode, engineId, outputIndex)`:
fresh slot state (`stretch` is `null`, `audioDuration` 1, defaults). -/
def createEngine (engineId : String) : Engine where
  id := engineId
  audioDuration := 1
  stretchLoaded := false
  controlValues := controlDefaults engineId
  configValues := configDefaults

/-- `setVolumeFromPercent(engine, value, fallback = 100)`:
`volume = clamp(toFiniteNumber(value, fallback), 0, 100) / 100`. -/
def setVolumeFromPercent (e : Engine) (value : JSValue) (fallback : ℚ) : Engine :=
  let v := clamp (toFiniteNumber value fallback) 0 100 / 100
  { e with controlValues := { e.controlValues with volume := v } }

/-- `setVolumeNormalized(engine, value)`: `none` models the `return false`
path (non-finite input, no mutation); otherwise a value in `[0,1]` passes
through, anything else is divided by 100, then clamped to `[0,1]`. -/
def setVolumeNormalized (e : Engine) (value : JSValue) : Option Engine :=
  match jsToNum? value with
  | none => none
  | some n =>
    let normalized := if n ≤ 1 ∧ 0 ≤ n then n else n / 100
    some { e with controlValues :=
      { e.controlValues with volume := clamp normalized 0 1 } }

/-! ## Emissions toward the audio graph / stretch node -/

/-- Observable audio state at the moment a mutation is processed:
`audioContext.currentTime` and the currently-sounding gain/pan-gain
values (`gain.gain.value`, `panLeftGain.gain.value`,
`panRightGain.gain.value`). -/
structure AudioNow where
  t : ℚ
  gainValue : ℚ
  panLeftValue : ℚ
  panRightValue : ℚ
deriving DecidableEq, Repr

/-- A `setValueAtTime(startValue, startTime)` followed by
`linearRampToValueAtTime(endValue, endTime)` on an audio param. -/
structure Ramp where
  startTime : ℚ
  startValue : ℚ
  endTime : ℚ
  endValue : ℚ
deriving DecidableEq, Repr

/-- The argument of `engine.stretch.schedule({...})` (multi client,
lines 510–522). -/
structure ScheduleMsg where
  active : Bool
  rate : ℚ
  semitones : ℚ
  tonalityHz : ℚ
  formantSemitones : ℚ
  formantCompensation : Bool
  formantBaseHz : ℚ
  loopStart : ℚ
  loopEnd : ℚ
  input : Option ℚ
  outputTime : ℚ
deriving DecidableEq, Repr

/-- The argument of `engine.stretch.configure({...})`. -/
structure ConfigureMsg where
  blockMs : ℚ
  overlap : ℚ
  splitComputation : Bool
deriving DecidableEq, Repr

/-- Everything `controlsChanged` pushes at the audio graph: the three
30 ms gain ramps, and the `schedule` call (`none` when `engine.stretch`
is `null`). -/
structure ControlsOut where
  gainRamp : Ramp
  panLeftRamp : Ramp
  panRightRamp : Ramp
  schedule : Option ScheduleMsg
deriving DecidableEq, Repr

/-- `controlsChanged(engine, scheduleAhead, opts)` of the multi client
(lines 446–549), restricted to its audio-graph effects (localStorage
persistence is commented out in the source; UI painting is out of scope).
Stored values are finite, so each `toFiniteNumber(x, d)` on them is `x`. -/
def controlsChanged (e : Engine) (scheduleAhead : Bool) (seekInput : Option ℚ)
    (now : AudioNow) : ControlsOut :=
  let targetVol := clamp e.controlValues.volume 0 1
  let gainRamp : Ramp :=
    ⟨now.t, now.gainValue, now.t + 3/100, targetVol⟩
  let pan := clamp e.controlValues.pan (-1) 1
  let left := (1 - pan) * (1/2)
  let right := (1 + pan) * (1/2)
  let panLeftRamp : Ramp := ⟨now.t, now.panLeftValue, now.t + 3/100, left⟩
  let panRightRamp : Ramp := ⟨now.t, now.panRightValue, now.t + 3/100, right⟩
  if e.stretchLoaded = false then
    ⟨gainRamp, panLeftRamp, panRightRamp, none⟩
  else
    let dur := e.audioDuration
    let ls0 := clamp e.controlValues.loopStart 0 dur
    let le0 := clamp e.controlValues.loopEnd 0 dur
    let lsle := if ls0 > le0 then (le0, ls0) else (ls0, le0)
    let msg : ScheduleMsg :=
      { active := e.controlValues.active
        rate := clamp e.controlValues.rate (1/100000) 2
        semitones := clamp e.controlValues.semitones (-48) 48
        tonalityHz := clamp e.controlValues.tonalityHz 20 22050
        formantSemitones := clamp e.controlValues.formantSemitones (-48) 48
        formantCompensation := e.controlValues.formantCompensation
        formantBaseHz := clamp e.controlValues.formantBaseHz 20 2000
        loopStart := lsle.1
        loopEnd := lsle.2
        input := seekInput.map (fun i => clamp i 0 dur)
        outputTime := now.t + (if scheduleAhead then 1/10 else 0) }
    ⟨gainRamp, panLeftRamp, panRightRamp, some msg⟩

/-- `configChanged(engine)` of the multi client (lines 414–444): returns
early when `engine.stretch` is `null`, otherwise immediately calls
`engine.stretch.configure` with the clamped config values.  There is no
debouncing in this function. -/
def configChangedCall (e : Engine) : Option ConfigureMsg :=
  if e.stretchLoaded = false then none
  else some
    { blockMs := clamp e.configValues.blockMs 10 500
      overlap := clamp e.configValues.overlap 1 8
      splitComputation := e.configValues.splitComputation }

/-- One call made toward the audio engine while processing a mutation. -/
inductive Emission where
  | controls (o : ControlsOut)
  | configure (c : ConfigureMsg)
deriving DecidableEq, Repr

/-- Number of `stretch.schedule` calls in an emission list. -/
def numScheduleCalls (l : List Emission) : ℕ :=
  (l.filter (fun em => match em with
    | .controls o => o.schedule.isSome
    | .configure _ => false)).length

/-- Number of `stretch.configure` calls in an emission list. -/
def numConfigureCalls (l : List Emission) : ℕ :=
  (l.filter (fun em => match em with
    | .controls _ => false
    | .configure _ => true)).length

/-- The `stretch.schedule` arguments in an emission list, in order. -/
def schedulesOf (l : List Emission) : List ScheduleMsg :=
  l.filterMap (fun em => match em with
    | .controls o => o.schedule
    | .configure _ => none)

/-! ## `applyIncomingSet` (multi client, lines 552–627) -/

/-- The value currently stored under a dynamic key. -/
inductive CurrentVal where
  | numCur (q : ℚ)
  | boolCur (b : Bool)
deriving DecidableEq, Repr

/-- Dynamic `key in engine.controlValues` lookup together with the
`typeof` of the stored value. -/
def controlGet? (cv : ControlValues) (key : String) : Option CurrentVal :=
  if key = "volume" then some (.numCur cv.volume)
  else if key = "pan" then some (.numCur cv.pan)
  else if key = "active" then some (.boolCur cv.active)
  else if key = "rate" then some (.numCur cv.rate)
  else if key = "semitones" then some (.numCur cv.semitones)
  else if key = "tonalityHz" then some (.numCur cv.tonalityHz)
  else if key = "formantSemitones" then some (.numCur cv.formantSemitones)
  else if key = "formantCompensation" then some (.boolCur cv.formantCompensation)
  else if key = "formantBaseHz" then some (.numCur cv.formantBaseHz)
  else if key = "loopStart" then some (.numCur cv.loopStart)
  else if key = "loopEnd" then some (.numCur cv.loopEnd)
  else none

/-- Dynamic numeric store `engine.controlValues[key] = n`. -/
def controlSetNum (cv : ControlValues) (key : String) (n : ℚ) : ControlValues :=
  if key = "volume" then { cv with volume := n }
  else if key = "pan" then { cv with pan := n }
  else if key = "rate" then { cv with rate := n }
  else if key = "semitones" then { cv with semitones := n }
  else if key = "tonalityHz" then { cv with tonalityHz := n }
  else if key = "formantSemitones" then { cv with formantSemitones := n }
  else if key = "formantBaseHz" then { cv with formantBaseHz := n }
  else if key = "loopStart" then { cv with loopStart := n }
  else if key = "loopEnd" then { cv with loopEnd := n }
  else cv

/-- Dynamic boolean store `engine.controlValues[key] = !!value`. -/
def controlSetBool (cv : ControlValues) (key : String) (b : Bool) : ControlValues :=
  if key = "active" then { cv with active := b }
  else if key = "formantCompensation" then { cv with formantCompensation := b }
  else cv

/-- Dynamic `key in engine.configValues` lookup. -/
def configGet? (cf : ConfigValues) (key : String) : Option CurrentVal :=
  if key = "blockMs" then some (.numCur cf.blockMs)
  else if key = "overlap" then some (.numCur cf.overlap)
  else if key = "splitComputation" then some (.boolCur cf.splitComputation)
  else none

/-- Dynamic numeric store `engine.configValues[key] = n`. -/
def configSetNum (cf : ConfigValues) (key : String) (n : ℚ) : ConfigValues :=
  if key = "blockMs" then { cf with blockMs := n }
  else if key = "overlap" then { cf with overlap := n }
  else cf

/-- Dynamic boolean store `engine.configValues[key] = !!value`. -/
def configSetBool (cf : ConfigValues) (key : String) (b : Bool) : ConfigValues :=
  if key = "splitComputation" then { cf with splitComputation := b }
  else cf

/-- The generic tail of `applyIncomingSet` (lines 598–627): dynamic
dispatch on `key in controlValues`, then `key in configValues`; numeric
fields reject non-finite input as a silent no-op, boolean fields coerce
via truthiness, unknown keys are ignored. -/
def applyGeneric (e : Engine) (key : String) (v : JSValue) (now : AudioNow) :
    Engine × List Emission :=
  match controlGet? e.controlValues key with
  | some (.numCur _) =>
    match jsToNum? v with
    | none => (e, [])
    | some n =>
      let e1 := { e with controlValues := controlSetNum e.controlValues key n }
      (e1, [.controls (controlsChanged e1 true none now)])
  | some (.boolCur _) =>
    let e1 := { e with controlValues := controlSetBool e.controlValues key (truthy v) }
    (e1, [.controls (controlsChanged e1 true none now)])
  | none =>
    match configGet? e.configValues key with
    | some (.numCur _) =>
      match jsToNum? v with
      | none => (e, [])
      | some n =>
        let e1 := { e with configValues := configSetNum e.configValues key n }
        (e1, (configChangedCall e1).toList.map .configure)
    | some (.boolCur _) =>
      let e1 := { e with configValues := configSetBool e.configValues key (truthy v) }
      (e1, (configChangedCall e1).toList.map .configure)
    | none => (e, [])

/-- `applyIncomingSet(engine, key, value)` of the multi client
(lines 552–627), also returning the calls emitted toward the audio
engine.  The `if (!engine || !key) return` guard is the empty-key test
(a `null` engine cannot arise in the embedding). -/
def applyIncomingSet (e : Engine) (key : String) (v : JSValue) (now : AudioNow) :
    Engine × List Emission :=
  if key = "" then (e, [])
  else if key = "volume" then
    match setVolumeNormalized e v with
    | none => (e, [])
    | some e1 => (e1, [.controls (controlsChanged e1 true none now)])
  else if key = "volumePercent" then
    let e1 := setVolumeFromPercent e v 100
    (e1, [.controls (controlsChanged e1 true none now)])
  else if key = "pan" then
    match jsToNum? v with
    | none => (e, [])
    | some n =>
      let pan := if 0 ≤ n ∧ n ≤ 100 then n / 50 - 1 else n
      let e1 := { e with controlValues :=
        { e.controlValues with pan := clamp pan (-1) 1 } }
      (e1, [.controls (controlsChanged e1 true none now)])
  else if key = "tone" then
    match jsToNum? v with
    | none => (e, [])
    | some n =>
      let e1 := { e with controlValues :=
        { e.controlValues with semitones := (jsRound (clamp n (-24) 24) : ℚ) } }
      (e1, [.controls (controlsChanged e1 true none now)])
  else if key = "semitones" then
    match jsToNum? v with
    | none => (e, [])
    | some n =>
      let e1 := { e with controlValues :=
        { e.controlValues with semitones := (jsRound (clamp n (-48) 48) : ℚ) } }
      (e1, [.controls (controlsChanged e1 true none now)])
  else applyGeneric e key v now

/-- Apply a burst of `set` mutations in order, collecting all emissions. -/
def applyOps (e : Engine) (ops : List (String × JSValue)) (now : AudioNow) :
    Engine × List Emission :=
  ops.foldl (fun acc op =>
    let r := applyIncomingSet acc.1 op.1 op.2 now
    (r.1, acc.2 ++ r.2)) (e, [])

/-- A fixed concrete `AudioNow` for concrete evaluations. -/
def now0 : AudioNow := ⟨0, 0, 0, 0⟩

/-! ## Multi-engine client: boot slot selection and `set` dispatch
(`src/app/multi/app.mjs`, `getRequestedEngineSlots` lines 34–52, `main`
lines 360–365, `connectWs` `ws.onmessage` lines 893–897) -/

/-- JS `s || fallback` on strings: the empty string is falsy. -/
def jsOrDefaultStr (s fallbackV : String) : String :=
  if s = "" then fallbackV else s

/-- Boot-time inputs of `getRequestedEngineSlots`:
`window.BAUKLANK_BOOT.engineSlots` when present, and the
`engines` / `slot` URL parameters. -/
structure BootParams where
  bootSlots : Option (List String)
  enginesParam : Option String
  slotParam : Option String
deriving DecidableEq, Repr

/-- The URL-parameter fallback branch of `getRequestedEngineSlots`. -/
def fallbackSlots (p : BootParams) : List String :=
  let slotParamU := (jsOrDefaultStr (p.slotParam.getD "") "A").toUpper
  if p.enginesParam = some "1" then
    [if slotParamU = "B" then "B" else "A"]
  else ["A", "B"]

/-- `getRequestedEngineSlots()`: prefer the boot script's slot list
(uppercased, filtered to `A`/`B`, used only when non-empty), else parse
the URL parameters. -/
def getRequestedEngineSlots (p : BootParams) : List String :=
  match p.bootSlots with
  | some l =>
    let slots := (l.map String.toUpper).filter (fun s => s = "A" ∨ s = "B")
    if slots = [] then fallbackSlots p else slots
  | none => fallbackSlots p

/-- `main`: `const defaultEngineId = requestedSlots[0] || 'A'`. -/
def defaultEngineId (slots : List String) : String :=
  jsOrDefaultStr (slots.headD "") "A"

/-- `main`: the `engines` map, built by inserting slot `A` then slot `B`
when requested. -/
def mkEngines (slots : List String) : List (String × Engine) :=
  (if slots.contains "A" then [("A", createEngine "A")] else []) ++
    (if slots.contains "B" then [("B", createEngine "B")] else [])

/-- Keys of the `engines` map. -/
def engineKeys (engines : List (String × Engine)) : List String :=
  engines.map Prod.fst

/-- `ws.onmessage` on a `set` message:
`(typeof msg.engine === 'string' && engines.has(msg.engine)) ? msg.engine : defaultEngineId`.
`tag = none` models a missing `engine` property. -/
def resolveSetEngineId (engines : List (String × Engine)) (defaultId : String)
    (tag : Option JSValue) : String :=
  match tag with
  | some (.str s) => if (engineKeys engines).contains s then s else defaultId
  | _ => defaultId

/-- `ws.onmessage` handling of `{type:"set", engine, key, value}`: apply
`applyIncomingSet` to the resolved engine slot, leaving the others
untouched. -/
def handleSetMessage (engines : List (String × Engine)) (defaultId : String)
    (tag : Option JSValue) (key : String) (v : JSValue) (now : AudioNow) :
    List (String × Engine) :=
  let eid := resolveSetEngineId engines defaultId tag
  engines.map (fun pr =>
    if pr.1 = eid then (pr.1, (applyIncomingSet pr.2 key v now).1) else pr)

/-! ## Single-engine client (`src/app/app.mjs`) -/

/-- Reconnect bookkeeping of `window.wsControlClient`:
`reconnectTimer` (abstracted to whether a timer is pending) and
`reconnectAttempt`. -/
structure ReconnState where
  timerPending : Bool
  attempt : ℕ
deriving DecidableEq, Repr

/-- The delay computed by `scheduleReconnect` for a given attempt count:
`Math.min(8000, 250 * (2 ** (reconnectAttempt - 1)))`. -/
def singleDelayMs (attempt : ℕ) : ℚ :=
  min 8000 (250 * 2 ^ (attempt - 1))

/-- `scheduleReconnect()` (app.mjs lines 408–419): a no-op while a timer
is pending; otherwise increments the attempt counter, computes the
backoff delay and arms the timer.  The returned `Option ℚ` is the delay
passed to `setTimeout`. -/
def scheduleReconnect (s : ReconnState) : ReconnState × Option ℚ :=
  if s.timerPending then (s, none)
  else
    let a := s.attempt + 1
    (⟨true, a⟩, some (singleDelayMs a))

/-- The `setTimeout` callback body: `reconnectTimer = null` (then
`connect()` runs). -/
def reconnectTimerFired (s : ReconnState) : ReconnState :=
  { s with timerPending := false }

/-- `clearReconnectTimer()` (app.mjs lines 401–406). -/
def clearReconnectTimer (s : ReconnState) : ReconnState :=
  { s with timerPending := false }

/-- `ws.onopen`: `reconnectAttempt = 0` — a successful connection resets
the backoff. -/
def wsOnOpen (s : ReconnState) : ReconnState :=
  { s with attempt := 0 }

/-- `k` consecutive connection failures starting from state `s`: each
failure triggers `ws.onclose → scheduleReconnect()`, and before the next
attempt (and hence the next failure) can happen, the pending timer fires.
Returns the final state and the delays passed to `setTimeout`, in order. -/
def failuresFrom (s : ReconnState) : ℕ → ReconnState × List ℚ
  | 0 => (s, [])
  | k + 1 =>
    let r1 := scheduleReconnect s
    let r2 := failuresFrom (reconnectTimerFired r1.1) k
    (r2.1, r1.2.toList ++ r2.2)

/-- The multi-engine client's reconnect delay: `ws.onclose` runs
`setTimeout(connectWs, 1000)` (multi/app.mjs line 855) — a fixed delay,
independent of the number of consecutive failures. -/
def multiOncloseDelayMs : ℚ := 1000

/-- State of the single-engine client's debounced `configChanged`
(app.mjs lines 559–594): the config values, whether the 50 ms
`configTimeout` is pending, and whether a stretch node is loaded. -/
structure SingleConfigState where
  configValues : ConfigValues
  timeoutPending : Bool
  stretchLoaded : Bool
deriving DecidableEq, Repr

/-- The clamped argument of `stretch.configure({...})` (identical clamps
in both clients). -/
def configureOf (cf : ConfigValues) : ConfigureMsg where
  blockMs := clamp cf.blockMs 10 500
  overlap := clamp cf.overlap 1 8
  splitComputation := cf.splitComputation

/-- `configChanged()` of the single-engine client: if no `configTimeout`
is pending, arm one; nothing is pushed to the stretch node at call time. -/
def configChangedSingle (s : SingleConfigState) : SingleConfigState :=
  { s with timeoutPending := true }

/-- A config mutation: store the new values, then call `configChanged()`. -/
def mutateConfigSingle (s : SingleConfigState) (cf : ConfigValues) :
    SingleConfigState :=
  configChangedSingle { s with configValues := cf }

/-- The 50 ms `configTimeout` fires: `configTimeout = null`, then
`stretch.configure` is called once with the config values as of firing
time (when a stretch node exists). -/
def configTimeoutFired (s : SingleConfigState) :
    SingleConfigState × List ConfigureMsg :=
  if s.timeoutPending then
    ({ s with timeoutPending := false },
      if s.stretchLoaded then [configureOf s.configValues] else [])
  else (s, [])

/-! ## Spec-side predicates and concrete fixtures -/

/-- The documented ranges of §3 for the stored values that the code
actually clamps before storing: volume, pan and semitones. -/
def storedInv (cv : ControlValues) : Prop :=
  0 ≤ cv.volume ∧ cv.volume ≤ 1 ∧ -1 ≤ cv.pan ∧ cv.pan ≤ 1 ∧
    -48 ≤ cv.semitones ∧ cv.semitones ≤ 48

/-- A fresh slot `A`. -/
def engineA : Engine := createEngine "A"

/-- Slot `A` after an audio file of duration 10 s has been loaded
(`handleArrayBuffer` sets `audioDuration` and a live stretch node). -/
def engineAready : Engine :=
  { createEngine "A" with audioDuration := 10, stretchLoaded := true }

/-! ## Helper lemmas -/

theorem le_clamp (n lo hi : ℚ) : lo ≤ clamp n lo hi :=
  le_max_left lo (min hi n)

theorem clamp_le (n lo hi : ℚ) (h : lo ≤ hi) : clamp n lo hi ≤ hi :=
  max_le h (min_le_left hi n)

theorem clamp_eq_of_le (n lo hi : ℚ) (h1 : lo ≤ n) (h2 : n ≤ hi) :
    clamp n lo hi = n := by
  unfold clamp
  rw [min_eq_right h2, max_eq_right h1]

theorem le_jsRound (a : ℤ) (q : ℚ) (h : (a : ℚ) ≤ q) : a ≤ jsRound q := by
  unfold jsRound
  rw [Int.le_floor]
  linarith

theorem jsRound_le (b : ℤ) (q : ℚ) (h : q ≤ b) : jsRound q ≤ b := by
  unfold jsRound
  rw [Int.floor_le_iff]
  linarith

theorem setVolumeNormalized_shape (e : Engine) (v : JSValue) (e1 : Engine)
    (h : setVolumeNormalized e v = some e1) :
    ∃ n, jsToNum? v = some n ∧
      e1 = { e with controlValues := { e.controlValues with
        volume := clamp (if n ≤ 1 ∧ 0 ≤ n then n else n / 100) 0 1 } } := by
  unfold setVolumeNormalized at h
  cases hv : jsToNum? v with
  | none => rw [hv] at h; exact absurd h (by simp)
  | some n =>
    rw [hv] at h
    simp only [Option.some_inj] at h
    exact ⟨n, rfl, h.symm⟩

theorem controlsChanged_gainRamp (e : Engine) (ahead : Bool) (si : Option ℚ)
    (now : AudioNow) :
    (controlsChanged e ahead si now).gainRamp =
      ⟨now.t, now.gainValue, now.t + 3/100, clamp e.controlValues.volume 0 1⟩ := by
  unfold controlsChanged
  split <;> rfl

theorem controlsChanged_panLeftRamp (e : Engine) (ahead : Bool) (si : Option ℚ)
    (now : AudioNow) :
    (controlsChanged e ahead si now).panLeftRamp =
      ⟨now.t, now.panLeftValue, now.t + 3/100,
        (1 - clamp e.controlValues.pan (-1) 1) * (1/2)⟩ := by
  unfold controlsChanged
  split <;> rfl

theorem controlsChanged_panRightRamp (e : Engine) (ahead : Bool) (si : Option ℚ)
    (now : AudioNow) :
    (controlsChanged e ahead si now).panRightRamp =
      ⟨now.t, now.panRightValue, now.t + 3/100,
        (1 + clamp e.controlValues.pan (-1) 1) * (1/2)⟩ := by
  unfold controlsChanged
  split <;> rfl

theorem controlsChanged_schedule_isSome (e : Engine) (ahead : Bool) (si : Option ℚ)
    (now : AudioNow) (h : e.stretchLoaded = true) :
    (controlsChanged e ahead si now).schedule.isSome = true := by
  unfold controlsChanged
  rw [h]
  simp

theorem controlsChanged_schedule_char (e : Engine) (ahead : Bool) (si : Option ℚ)
    (now : AudioNow) (m : ScheduleMsg)
    (h : (controlsChanged e ahead si now).schedule = some m) :
    e.stretchLoaded = true
    ∧ m.rate = clamp e.controlValues.rate (1/100000) 2
    ∧ m.semitones = clamp e.controlValues.semitones (-48) 48
    ∧ m.tonalityHz = clamp e.controlValues.tonalityHz 20 22050
    ∧ m.formantSemitones = clamp e.controlValues.formantSemitones (-48) 48
    ∧ m.formantBaseHz = clamp e.controlValues.formantBaseHz 20 2000
    ∧ m.loopStart = min (clamp e.controlValues.loopStart 0 e.audioDuration)
        (clamp e.controlValues.loopEnd 0 e.audioDuration)
    ∧ m.loopEnd = max (clamp e.controlValues.loopStart 0 e.audioDuration)
        (clamp e.controlValues.loopEnd 0 e.audioDuration)
    ∧ m.outputTime = now.t + (if ahead then 1/10 else 0) := by
  unfold controlsChanged at h
  by_cases hs : e.stretchLoaded = false
  · rw [if_pos hs] at h
    exact absurd h (by simp)
  · rw [if_neg hs] at h
    simp only [Option.some_inj] at h
    subst h
    refine ⟨by simpa using hs, rfl, rfl, rfl, rfl, rfl, ?_, ?_, rfl⟩
    · by_cases hgt : clamp e.controlValues.loopStart 0 e.audioDuration >
          clamp e.controlValues.loopEnd 0 e.audioDuration
      · simp only [if_pos hgt]
        exact (min_eq_right hgt.le).symm
      · simp only [if_neg hgt]
        exact (min_eq_left (not_lt.mp hgt)).symm
    · by_cases hgt : clamp e.controlValues.loopStart 0 e.audioDuration >
          clamp e.controlValues.loopEnd 0 e.audioDuration
      · simp only [if_pos hgt]
        exact (max_eq_left hgt.le).symm
      · simp only [if_neg hgt]
        exact (max_eq_right (not_lt.mp hgt)).symm

theorem emissions_shape (e : Engine) (key : String) (v : JSValue) (now : AudioNow) :
    (applyIncomingSet e key v now).2 = []
    ∨ (applyIncomingSet e key v now).2 =
        [.controls (controlsChanged (applyIncomingSet e key v now).1 true none now)]
    ∨ (applyIncomingSet e key v now).2 =
        ((configChangedCall (applyIncomingSet e key v now).1).toList.map .configure) := by
  unfold applyIncomingSet applyGeneric
  repeat' split
  all_goals simp

theorem applyIncomingSet_preserves (e : Engine) (key : String) (v : JSValue)
    (now : AudioNow) :
    (applyIncomingSet e key v now).1.stretchLoaded = e.stretchLoaded
    ∧ (applyIncomingSet e key v now).1.audioDuration = e.audioDuration
    ∧ (applyIncomingSet e key v now).1.id = e.id := by
  unfold applyIncomingSet applyGeneric setVolumeFromPercent
  repeat' split <;> try simp
  case _ e1 heq =>
    obtain ⟨n, -, he1⟩ := setVolumeNormalized_shape e v e1 heq
    subst he1
    exact ⟨rfl, rfl, rfl⟩

theorem schedulesOf_nil : schedulesOf [] = [] := rfl

theorem schedulesOf_controls (o : ControlsOut) :
    schedulesOf [.controls o] = o.schedule.toList := by
  cases h : o.schedule <;> simp [schedulesOf, h]

theorem schedulesOf_configureList (c : Option ConfigureMsg) :
    schedulesOf (c.toList.map .configure) = [] := by
  cases c <;> simp [schedulesOf]

theorem controls_not_mem_configureList (o : ControlsOut) (c : Option ConfigureMsg) :
    Emission.controls o ∉ (c.toList.map Emission.configure) := by
  cases c <;> simp

theorem volume_controlSetNum (cv : ControlValues) (key : String) (n : ℚ)
    (hk : key ≠ "volume") : (controlSetNum cv key n).volume = cv.volume := by
  unfold controlSetNum
  split_ifs <;> simp_all

theorem pan_controlSetNum (cv : ControlValues) (key : String) (n : ℚ)
    (hk : key ≠ "pan") : (controlSetNum cv key n).pan = cv.pan := by
  unfold controlSetNum
  split_ifs <;> simp_all

theorem semitones_controlSetNum (cv : ControlValues) (key : String) (n : ℚ)
    (hk : key ≠ "semitones") : (controlSetNum cv key n).semitones = cv.semitones := by
  unfold controlSetNum
  split_ifs <;> simp_all

theorem controlSetBool_numFields (cv : ControlValues) (key : String) (b : Bool) :
    (controlSetBool cv key b).volume = cv.volume
    ∧ (controlSetBool cv key b).pan = cv.pan
    ∧ (controlSetBool cv key b).semitones = cv.semitones := by
  unfold controlSetBool
  split_ifs <;> simp_all

theorem foldl_mutateConfig (l : List ConfigValues) (c : ConfigValues)
    (s0 : SingleConfigState) :
    (l ++ [c]).foldl mutateConfigSingle s0 = ⟨c, true, s0.stretchLoaded⟩ := by
  induction l generalizing s0 with
  | nil => rfl
  | cons x l ih =>
    rw [List.cons_append, List.foldl_cons, ih]
    rfl

theorem fallbackSlots_ne_nil (p : BootParams) : fallbackSlots p ≠ [] := by
  unfold fallbackSlots
  split <;> simp

theorem getRequestedEngineSlots_ne_nil (p : BootParams) :
    getRequestedEngineSlots p ≠ [] := by
  unfold getRequestedEngineSlots
  cases p.bootSlots with
  | none => exact fallbackSlots_ne_nil p
  | some l =>
    simp only []
    split
    · exact fallbackSlots_ne_nil p
    · assumption

theorem mem_fallbackSlots (p : BootParams) (s : String)
    (h : s ∈ fallbackSlots p) : s = "A" ∨ s = "B" := by
  unfold fallbackSlots at h
  rcases (by split at h <;> simp_all : s ∈ ["A", "B"] ∨
      s = (if (jsOrDefaultStr (p.slotParam.getD "") "A").toUpper = "B" then "B" else "A")) with h1 | h1
  · simpa using h1
  · rw [h1]; split <;> simp

theorem mem_getRequestedEngineSlots (p : BootParams) (s : String)
    (h : s ∈ getRequestedEngineSlots p) : s = "A" ∨ s = "B" := by
  unfold getRequestedEngineSlots at h
  cases hb : p.bootSlots with
  | none => rw [hb] at h; exact mem_fallbackSlots p s h
  | some l =>
    rw [hb] at h
    simp only [] at h
    split at h
    · exact mem_fallbackSlots p s h
    · have := List.of_mem_filter h
      simpa using this

theorem apply_volume_eq (e : Engine) (v : JSValue) (now : AudioNow) :
    applyIncomingSet e "volume" v now =
      (match setVolumeNormalized e v with
        | none => (e, [])
        | some e1 => (e1, [.controls (controlsChanged e1 true none now)])) := rfl

theorem apply_volumePercent_eq (e : Engine) (v : JSValue) (now : AudioNow) :
    applyIncomingSet e "volumePercent" v now =
      (setVolumeFromPercent e v 100,
        [.controls (controlsChanged (setVolumeFromPercent e v 100) true none now)]) := rfl

theorem apply_pan_eq (e : Engine) (v : JSValue) (now : AudioNow) :
    applyIncomingSet e "pan" v now =
      (match jsToNum? v with
        | none => (e, [])
        | some n =>
          let e1 := { e with controlValues := { e.controlValues with
            pan := clamp (if 0 ≤ n ∧ n ≤ 100 then n / 50 - 1 else n) (-1) 1 } }
          (e1, [.controls (controlsChanged e1 true none now)])) := rfl

theorem apply_tone_eq (e : Engine) (v : JSValue) (now : AudioNow) :
    applyIncomingSet e "tone" v now =
      (match jsToNum? v with
        | none => (e, [])
        | some n =>
          let e1 := { e with controlValues := { e.controlValues with
            semitones := (jsRound (clamp n (-24) 24) : ℚ) } }
          (e1, [.controls (controlsChanged e1 true none now)])) := rfl

theorem apply_semitones_eq (e : Engine) (v : JSValue) (now : AudioNow) :
    applyIncomingSet e "semitones" v now =
      (match jsToNum? v with
        | none => (e, [])
        | some n =>
          let e1 := { e with controlValues := { e.controlValues with
            semitones := (jsRound (clamp n (-48) 48) : ℚ) } }
          (e1, [.controls (controlsChanged e1 true none now)])) := rfl

theorem apply_generic_eq (e : Engine) (key : String) (v : JSValue) (now : AudioNow)
    (h0 : key ≠ "") (h1 : key ≠ "volume") (h2 : key ≠ "volumePercent")
    (h3 : key ≠ "pan") (h4 : key ≠ "tone") (h5 : key ≠ "semitones") :
    applyIncomingSet e key v now = applyGeneric e key v now := by
  unfold applyIncomingSet
  rw [if_neg h0, if_neg h1, if_neg h2, if_neg h3, if_neg h4, if_neg h5]

theorem applyGeneric_preserves_vps (e : Engine) (key : String) (v : JSValue)
    (now : AudioNow) (h1 : key ≠ "volume") (h2 : key ≠ "pan")
    (h5 : key ≠ "semitones") :
    (applyGeneric e key v now).1.controlValues.volume = e.controlValues.volume
    ∧ (applyGeneric e key v now).1.controlValues.pan = e.controlValues.pan
    ∧ (applyGeneric e key v now).1.controlValues.semitones
        = e.controlValues.semitones := by
  unfold applyGeneric
  repeat' split
  all_goals simp [volume_controlSetNum, pan_controlSetNum, semitones_controlSetNum,
    controlSetBool_numFields, h1, h2, h5]

/-! ## Claim theorems -/

/-- C3 counterexample: `applyIncomingSet(slot, "volumePercent", "abc")` does
*not* leave the stored volume unchanged.  Starting from the default volume
0.10, the non-numeric value falls back to 100 percent and the stored volume
becomes 1.0. -/
theorem volumePercent_abc_overwrites_volume :
    engineA.controlValues.volume = 1/10
    ∧ (applyIncomingSet engineA "volumePercent"
        (.str "abc") now0).1.controlValues.volume = 1
    ∧ ¬((applyIncomingSet engineA "volumePercent"
        (.str "abc") now0).1.controlValues.volume = engineA.controlValues.volume) := by
  have habc : strToNum? "abc" = none := by decide
  refine ⟨rfl, ?_, ?_⟩ <;>
    norm_num [apply_volumePercent_eq, setVolumeFromPercent, toFiniteNumber,
      jsToNum?, habc, clamp, max_def, min_def, engineA, createEngine,
      controlDefaults]

/-- C3 (amended): `applyIncomingSet(slot, "volumePercent", 150)` clamps to
volume 1.0 (100 %); `applyIncomingSet(slot, "volumePercent", "abc")` — a
non-numeric value — also stores volume 1.0, because `setVolumeFromPercent`
substitutes the fallback of 100 percent instead of rejecting the input. -/
theorem volumePercent_clamps_and_nonnumeric_falls_back
    (e : Engine) (now : AudioNow) :
    (applyIncomingSet e "volumePercent" (.num 150) now).1.controlValues.volume = 1
    ∧ (applyIncomingSet e "volumePercent" (.str "abc") now).1.controlValues.volume
        = 1 := by
  rw [apply_volumePercent_eq, apply_volumePercent_eq]
  unfold setVolumeFromPercent
  constructor
  · show clamp (toFiniteNumber (.num 150) 100) 0 100 / 100 = 1
    have : toFiniteNumber (.num 150) 100 = 150 := rfl
    rw [this]
    norm_num [clamp]
  · show clamp (toFiniteNumber (.str "abc") 100) 0 100 / 100 = 1
    have habc : strToNum? "abc" = none := by decide
    have : toFiniteNumber (.str "abc") 100 = 100 := by
      simp [toFiniteNumber, jsToNum?, habc]
    rw [this]
    norm_num [clamp]

/-- C5: on the normalized `"volume"` key, a finite value already in `[0,1]`
is stored as-is; any other finite value is divided by 100 and clamped to
`[0,1]`; non-finite input is a complete no-op. -/
theorem volume_normalized_semantics :
    (∀ (e : Engine) (v : JSValue) (n : ℚ) (now : AudioNow),
        jsToNum? v = some n → 0 ≤ n → n ≤ 1 →
        (applyIncomingSet e "volume" v now).1.controlValues.volume = n)
    ∧ (∀ (e : Engine) (v : JSValue) (n : ℚ) (now : AudioNow),
        jsToNum? v = some n → ¬(0 ≤ n ∧ n ≤ 1) →
        (applyIncomingSet e "volume" v now).1.controlValues.volume
          = clamp (n / 100) 0 1)
    ∧ (∀ (e : Engine) (v : JSValue) (now : AudioNow),
        jsToNum? v = none → applyIncomingSet e "volume" v now = (e, [])) := by
  refine ⟨?_, ?_, ?_⟩
  · intro e v n now hv h0 h1
    rw [apply_volume_eq]
    unfold setVolumeNormalized
    rw [hv]
    simp only [if_pos (And.intro h1 h0)]
    exact clamp_eq_of_le n 0 1 h0 h1
  · intro e v n now hv hout
    rw [apply_volume_eq]
    unfold setVolumeNormalized
    rw [hv]
    have : ¬(n ≤ 1 ∧ 0 ≤ n) := fun hc => hout ⟨hc.2, hc.1⟩
    simp only [if_neg this]
  · intro e v now hv
    rw [apply_volume_eq]
    unfold setVolumeNormalized
    rw [hv]

/-- C5 witness: concrete instances of all three branches — 0.5 passes
through, 50 becomes 0.5, and `NaN` leaves everything untouched. -/
theorem volume_normalized_semantics_witness :
    (applyIncomingSet engineA "volume" (.num (1/2)) now0).1.controlValues.volume
        = 1/2
    ∧ (applyIncomingSet engineA "volume" (.num 50) now0).1.controlValues.volume
        = clamp (50 / 100) 0 1
    ∧ applyIncomingSet engineA "volume" .nanV now0 = (engineA, []) := by
  refine ⟨?_, ?_, ?_⟩
  · exact volume_normalized_semantics.1 engineA (.num (1/2)) (1/2) now0 rfl
      (by norm_num) (by norm_num)
  · exact volume_normalized_semantics.2.1 engineA (.num 50) 50 now0 rfl
      (by norm_num)
  · exact volume_normalized_semantics.2.2 engineA .nanV now0 rfl

/-- C8: for finite input, `applyIncomingSet(slot, "tone", v)` stores
`semitones` as `v` clamped to `[-24,24]` and rounded to an integer, and —
when a stretch node is loaded — emits exactly one `schedule` call. -/
theorem tone_clamps_rounds_and_schedules_once
    (e : Engine) (v : JSValue) (n : ℚ) (now : AudioNow)
    (hn : jsToNum? v = some n) (hs : e.stretchLoaded = true) :
    (applyIncomingSet e "tone" v now).1.controlValues.semitones
        = (jsRound (clamp n (-24) 24) : ℚ)
    ∧ (-24 : ℚ) ≤ (applyIncomingSet e "tone" v now).1.controlValues.semitones
    ∧ (applyIncomingSet e "tone" v now).1.controlValues.semitones ≤ 24
    ∧ numScheduleCalls (applyIncomingSet e "tone" v now).2 = 1 := by
  rw [apply_tone_eq, hn]
  have hlo : ((-24 : ℤ) : ℚ) ≤ jsRound (clamp n (-24) 24) := by
    have h1 : (-24 : ℤ) ≤ jsRound (clamp n (-24) 24) :=
      le_jsRound (-24) _ (by push_cast; exact le_clamp n (-24) 24)
    exact_mod_cast h1
  have hhi : (jsRound (clamp n (-24) 24) : ℚ) ≤ ((24 : ℤ) : ℚ) := by
    have h1 : jsRound (clamp n (-24) 24) ≤ (24 : ℤ) :=
      jsRound_le 24 _ (by push_cast; exact clamp_le n (-24) 24 (by norm_num))
    exact_mod_cast h1
  refine ⟨rfl, by push_cast at hlo ⊢; exact hlo, by push_cast at hhi ⊢; exact hhi, ?_⟩
  have hsome : (controlsChanged { e with controlValues := { e.controlValues with
      semitones := (jsRound (clamp n (-24) 24) : ℚ) } } true none now).schedule.isSome
      = true :=
    controlsChanged_schedule_isSome _ true none now hs
  simp [numScheduleCalls, hsome]

/-- C8 witness: `applyIncomingSet(slot, "tone", 30)` stores `semitones = 24`
and emits exactly one schedule call. -/
theorem tone_witness :
    (applyIncomingSet engineAready "tone" (.num 30) now0).1.controlValues.semitones
        = 24
    ∧ numScheduleCalls (applyIncomingSet engineAready "tone" (.num 30) now0).2
        = 1 := by
  have h := tone_clamps_rounds_and_schedules_once engineAready (.num 30) 30 now0
    rfl rfl
  refine ⟨?_, h.2.2.2⟩
  rw [h.1]
  norm_num [jsRound, clamp, max_def, min_def]

/-- C1 counterexample: with `loopStart=5, loopEnd=2` incoming (duration 10),
the *stored* values after `applyIncomingSet` are still `5` and `2` — neither
clamped-ordering nor swapping is applied to the stored state. -/
theorem loop_swap_not_applied_to_stored_values :
    (applyIncomingSet ((applyIncomingSet engineAready "loopEnd" (.num 2) now0).1)
        "loopStart" (.num 5) now0).1.controlValues.loopStart = 5
    ∧ (applyIncomingSet ((applyIncomingSet engineAready "loopEnd" (.num 2) now0).1)
        "loopStart" (.num 5) now0).1.controlValues.loopEnd = 2
    ∧ ¬((applyIncomingSet ((applyIncomingSet engineAready "loopEnd" (.num 2) now0).1)
          "loopStart" (.num 5) now0).1.controlValues.loopStart = 2
        ∧ (applyIncomingSet ((applyIncomingSet engineAready "loopEnd" (.num 2) now0).1)
          "loopStart" (.num 5) now0).1.controlValues.loopEnd = 5) := by
  have h1 : (applyIncomingSet engineAready "loopEnd" (.num 2) now0).1
      = { engineAready with controlValues :=
          { engineAready.controlValues with loopEnd := 2 } } := by
    rw [apply_generic_eq _ _ _ _ (by decide) (by decide) (by decide) (by decide)
      (by decide) (by decide)]
    simp [applyGeneric, controlGet?, controlSetNum, jsToNum?, engineAready,
      createEngine, controlDefaults]
  rw [h1]
  have h2 : (applyIncomingSet { engineAready with controlValues :=
        { engineAready.controlValues with loopEnd := 2 } }
        "loopStart" (.num 5) now0).1
      = { engineAready with controlValues :=
          { engineAready.controlValues with loopEnd := 2, loopStart := 5 } } := by
    rw [apply_generic_eq _ _ _ _ (by decide) (by decide) (by decide) (by decide)
      (by decide) (by decide)]
    simp [applyGeneric, controlGet?, controlSetNum, jsToNum?, engineAready,
      createEngine, controlDefaults]
  rw [h2]
  norm_num [engineAready, createEngine, controlDefaults]

/-- C1 (amended): clamping into `[0, duration]` and ordering-by-swap are
applied to the loop values carried by the `schedule` call pushed to the
audio engine, not to the stored values: every schedule message orders and
bounds its loop fields, and for stored `loopStart=5, loopEnd=2`
(duration 10) the emitted schedule call carries `loopStart=2, loopEnd=5`
while the stored values remain `5` and `2`. -/
theorem loop_bounds_clamped_and_swapped_in_schedule :
    (∀ (e : Engine) (ahead : Bool) (si : Option ℚ) (now : AudioNow)
        (m : ScheduleMsg),
        (controlsChanged e ahead si now).schedule = some m → 0 ≤ e.audioDuration →
        0 ≤ m.loopStart ∧ m.loopStart ≤ m.loopEnd ∧ m.loopEnd ≤ e.audioDuration
        ∧ m.loopStart = min (clamp e.controlValues.loopStart 0 e.audioDuration)
            (clamp e.controlValues.loopEnd 0 e.audioDuration)
        ∧ m.loopEnd = max (clamp e.controlValues.loopStart 0 e.audioDuration)
            (clamp e.controlValues.loopEnd 0 e.audioDuration))
    ∧ ((applyIncomingSet ((applyIncomingSet engineAready "loopEnd" (.num 2) now0).1)
          "loopStart" (.num 5) now0).1.controlValues.loopStart = 5
      ∧ (applyIncomingSet ((applyIncomingSet engineAready "loopEnd" (.num 2) now0).1)
          "loopStart" (.num 5) now0).1.controlValues.loopEnd = 2
      ∧ (schedulesOf (applyIncomingSet
            ((applyIncomingSet engineAready "loopEnd" (.num 2) now0).1)
            "loopStart" (.num 5) now0).2).map
          (fun m => (m.loopStart, m.loopEnd)) = [(2, 5)]) := by
  constructor
  · intro e ahead si now m hm hdur
    obtain ⟨-, -, -, -, -, -, hls, hle, -⟩ :=
      controlsChanged_schedule_char e ahead si now m hm
    refine ⟨?_, ?_, ?_, hls, hle⟩
    · rw [hls]
      exact le_min (le_clamp _ 0 _) (le_clamp _ 0 _)
    · rw [hls, hle]
      exact min_le_max
    · rw [hle]
      exact max_le (clamp_le _ 0 _ hdur) (clamp_le _ 0 _ hdur)
  · have h1 : (applyIncomingSet engineAready "loopEnd" (.num 2) now0).1
        = { engineAready with controlValues :=
            { engineAready.controlValues with loopEnd := 2 } } := by
      rw [apply_generic_eq _ _ _ _ (by decide) (by decide) (by decide) (by decide)
        (by decide) (by decide)]
      simp [applyGeneric, controlGet?, controlSetNum, jsToNum?, engineAready,
        createEngine, controlDefaults]
    rw [h1]
    rw [apply_generic_eq _ _ _ _ (by decide) (by decide) (by decide) (by decide)
      (by decide) (by decide)]
    simp [applyGeneric, controlGet?, controlSetNum, jsToNum?, engineAready,
      createEngine, controlDefaults, schedulesOf]
    norm_num [controlsChanged, clamp, max_def, min_def]
    simp

/-- C1 witness: the general part of the amended claim, instantiated at the
concrete engine whose schedule message was computed above. -/
theorem loop_bounds_schedule_witness :
    (controlsChanged engineAready true none now0).schedule
      = some ⟨true, 1/1000, 0, 16000, 0, false, 200, 1, 1, none, 1/10⟩
    ∧ 0 ≤ (⟨true, 1/1000, 0, 16000, 0, false, 200, 1, 1, none, 1/10⟩
        : ScheduleMsg).loopStart
    ∧ (⟨true, 1/1000, 0, 16000, 0, false, 200, 1, 1, none, 1/10⟩
        : ScheduleMsg).loopStart
      ≤ (⟨true, 1/1000, 0, 16000, 0, false, 200, 1, 1, none, 1/10⟩
        : ScheduleMsg).loopEnd
    ∧ (⟨true, 1/1000, 0, 16000, 0, false, 200, 1, 1, none, 1/10⟩
        : ScheduleMsg).loopEnd ≤ engineAready.audioDuration := by
  have hm : (controlsChanged engineAready true none now0).schedule
      = some ⟨true, 1/1000, 0, 16000, 0, false, 200, 1, 1, none, 1/10⟩ := by
    norm_num [controlsChanged, engineAready, createEngine, controlDefaults,
      now0, clamp, max_def, min_def]
  have h := loop_bounds_clamped_and_swapped_in_schedule.1 engineAready true none
    now0 ⟨true, 1/1000, 0, 16000, 0, false, 200, 1, 1, none, 1/10⟩ hm
    (by norm_num [engineAready, createEngine])
  exact ⟨hm, h.1, h.2.1, h.2.2.1⟩

/-- C2 counterexample: the multi-engine client's reconnect delay is a fixed
1000 ms (`setTimeout(connectWs, 1000)` in `ws.onclose`), so the first
consecutive failure is retried after 1000 ms, not 250 ms. -/
theorem multi_reconnect_delay_is_fixed_1000 :
    multiOncloseDelayMs = 1000 ∧ multiOncloseDelayMs ≠ 250 := by
  constructor
  · rfl
  · norm_num [multiOncloseDelayMs]

/-- C2 (amended): in the *single-engine* client, reconnect backoff starts at
250 ms, doubles per consecutive failure (four consecutive failures yield
250, 500, 1000, 2000 ms), caps at 8000 ms from the sixth failure on, resets
to 250 ms after any successful connection, and `scheduleReconnect` is a
no-op while a reconnect timer is already pending.  The multi-engine client
instead retries every disconnect after a fixed 1000 ms delay. -/
theorem reconnect_backoff_single_engine :
    ((failuresFrom ⟨false, 0⟩ 4).2 = [250, 500, 1000, 2000])
    ∧ (∀ n, 6 ≤ n → singleDelayMs n = 8000)
    ∧ (∀ s : ReconnState,
        (scheduleReconnect (wsOnOpen (clearReconnectTimer s))).2 = some 250)
    ∧ (∀ s : ReconnState, s.timerPending = true → scheduleReconnect s = (s, none))
    ∧ multiOncloseDelayMs = 1000 := by
  refine ⟨?_, ?_, ?_, ?_, rfl⟩
  · norm_num [failuresFrom, scheduleReconnect, reconnectTimerFired, singleDelayMs,
      min_def]
  · intro n hn
    have h5 : (32 : ℚ) ≤ 2 ^ (n - 1) := by
      calc (32 : ℚ) = 2 ^ 5 := by norm_num
        _ ≤ 2 ^ (n - 1) := by
          apply pow_le_pow_right₀ (by norm_num)
          omega
    have h8 : (8000 : ℚ) ≤ 250 * 2 ^ (n - 1) := by nlinarith
    unfold singleDelayMs
    exact min_eq_left h8
  · intro s
    show (scheduleReconnect ⟨false, 0⟩).2 = some 250
    norm_num [scheduleReconnect, singleDelayMs, min_def]
  · intro s hs
    unfold scheduleReconnect
    rw [if_pos hs]

/-- C2 witness: the cap at the sixth failure, the reset to 250 ms after a
successful connection, and the no-duplication guard, at concrete states. -/
theorem reconnect_backoff_witness :
    singleDelayMs 6 = 8000
    ∧ (scheduleReconnect (wsOnOpen (clearReconnectTimer ⟨true, 7⟩))).2 = some 250
    ∧ scheduleReconnect ⟨true, 3⟩ = (⟨true, 3⟩, none) := by
  have h := reconnect_backoff_single_engine
  exact ⟨h.2.1 6 (by norm_num), h.2.2.1 ⟨true, 7⟩, h.2.2.2.1 ⟨true, 3⟩ rfl⟩

/-- C4 counterexample: in the multi-engine client a burst of two `blockMs`
mutations on one engine slot produces two `configure` calls — one per
mutation, not one per burst. -/
theorem multi_config_burst_two_configure_calls :
    numConfigureCalls (applyOps engineAready
        [("blockMs", .num 100), ("blockMs", .num 120)] now0).2 = 2
    ∧ numConfigureCalls (applyOps engineAready
        [("blockMs", .num 100), ("blockMs", .num 120)] now0).2 ≠ 1 := by
  have h1 : ∀ (e : Engine) (q : ℚ), applyIncomingSet e "blockMs" (.num q) now0
      = (let e1 := { e with configValues := configSetNum e.configValues "blockMs" q }
         (e1, (configChangedCall e1).toList.map .configure)) := by
    intro e q
    rw [apply_generic_eq _ _ _ _ (by decide) (by decide) (by decide) (by decide)
      (by decide) (by decide)]
    simp [applyGeneric, controlGet?, configGet?, jsToNum?]
  constructor <;>
    simp [applyOps, h1, configChangedCall, configSetNum, numConfigureCalls,
      engineAready, createEngine]

/-- C4 (amended): only the single-engine client coalesces config mutations —
any burst of mutations while the 50 ms `configTimeout` is pending results in
a single `configure` call carrying the final values when the timer fires.
The multi-engine client does not coalesce: every accepted config mutation
immediately issues its own `configure` call. -/
theorem config_debounce_single_vs_multi :
    (∀ (l : List ConfigValues) (c cv0 : ConfigValues),
        configTimeoutFired ((l ++ [c]).foldl mutateConfigSingle ⟨cv0, false, true⟩)
          = (⟨c, false, true⟩, [configureOf c]))
    ∧ (∀ (e : Engine) (v : JSValue) (n : ℚ) (now : AudioNow),
        e.stretchLoaded = true → jsToNum? v = some n →
        numConfigureCalls (applyIncomingSet e "blockMs" v now).2 = 1
        ∧ numConfigureCalls (applyIncomingSet e "overlap" v now).2 = 1) := by
  constructor
  · intro l c cv0
    rw [foldl_mutateConfig]
    rfl
  · intro e v n now hs hv
    constructor
    · rw [apply_generic_eq _ _ _ _ (by decide) (by decide) (by decide) (by decide)
        (by decide) (by decide)]
      simp [applyGeneric, controlGet?, configGet?, hv, configChangedCall,
        numConfigureCalls, hs]
    · rw [apply_generic_eq _ _ _ _ (by decide) (by decide) (by decide) (by decide)
        (by decide) (by decide)]
      simp [applyGeneric, controlGet?, configGet?, hv, configChangedCall,
        numConfigureCalls, hs]

/-- C4 witness: a two-mutation burst in the single-engine client yields one
`configure` with the last values; one multi-engine mutation yields one
immediate `configure`. -/
theorem config_debounce_witness :
    configTimeoutFired (([(⟨100, 2, false⟩ : ConfigValues)]
          ++ [(⟨120, 2, false⟩ : ConfigValues)]).foldl
        mutateConfigSingle ⟨configDefaults, false, true⟩)
      = (⟨(⟨120, 2, false⟩ : ConfigValues), false, true⟩,
          [configureOf ⟨120, 2, false⟩])
    ∧ numConfigureCalls
        (applyIncomingSet engineAready "blockMs" (.num 100) now0).2 = 1 := by
  have h := config_debounce_single_vs_multi
  exact ⟨h.1 [(⟨100, 2, false⟩ : ConfigValues)] ⟨120, 2, false⟩ configDefaults,
    (h.2 engineAready (.num 100) 100 now0 rfl rfl).1⟩

theorem controlGet?_eq_none_of_config (cv : ControlValues) (cf : ConfigValues)
    (key : String) (c : CurrentVal) (h : configGet? cf key = some c) :
    controlGet? cv key = none := by
  unfold configGet? at h
  split_ifs at h with h1 h2 h3
  · subst h1; rfl
  · subst h2; rfl
  · subst h3; rfl

/-- C6 counterexample: `applyIncomingSet(slot, "rate", 100)` stores
`rate = 100`, far outside the documented range `[0.00001, 2]` — the stored
per-slot state is *not* range-invariant for generic numeric keys. -/
theorem stored_rate_exceeds_documented_range :
    (applyIncomingSet engineA "rate" (.num 100) now0).1.controlValues.rate = 100
    ∧ ¬((applyIncomingSet engineA "rate" (.num 100) now0).1.controlValues.rate
        ≤ 2) := by
  have h1 : (applyIncomingSet engineA "rate" (.num 100) now0).1
      = { engineA with controlValues :=
          { engineA.controlValues with rate := 100 } } := by
    rw [apply_generic_eq _ _ _ _ (by decide) (by decide) (by decide) (by decide)
      (by decide) (by decide)]
    simp [applyGeneric, controlGet?, controlSetNum, jsToNum?, engineA,
      createEngine, controlDefaults]
  rw [h1]
  norm_num

/-- C6 (amended): after any `applyIncomingSet`, the stored volume stays in
`[0,1]`, pan in `[-1,1]` and semitones in `[-48,48]` (those keys clamp
before storing), but the remaining numeric controls (rate, tonalityHz,
formantSemitones, formantBaseHz, loop bounds) are stored unclamped; their
documented ranges hold only for the values carried by each `schedule` call
sent to the audio engine. -/
theorem stored_and_scheduled_ranges (e : Engine) (key : String) (v : JSValue)
    (now : AudioNow) (hinv : storedInv e.controlValues) :
    storedInv (applyIncomingSet e key v now).1.controlValues
    ∧ (∀ m ∈ schedulesOf (applyIncomingSet e key v now).2,
        1/100000 ≤ m.rate ∧ m.rate ≤ 2
        ∧ -48 ≤ m.semitones ∧ m.semitones ≤ 48
        ∧ 20 ≤ m.tonalityHz ∧ m.tonalityHz ≤ 22050
        ∧ -48 ≤ m.formantSemitones ∧ m.formantSemitones ≤ 48
        ∧ 20 ≤ m.formantBaseHz ∧ m.formantBaseHz ≤ 2000) := by
  obtain ⟨hv0, hv1, hp0, hp1, hs0, hs1⟩ := hinv
  constructor
  · by_cases hk0 : key = ""
    · subst hk0
      have h : (applyIncomingSet e "" v now).1 = e := rfl
      rw [h]
      exact ⟨hv0, hv1, hp0, hp1, hs0, hs1⟩
    by_cases hk1 : key = "volume"
    · subst hk1
      rw [apply_volume_eq]
      cases hsv : setVolumeNormalized e v with
      | none =>
        exact ⟨hv0, hv1, hp0, hp1, hs0, hs1⟩
      | some e1 =>
        obtain ⟨n, -, he1⟩ := setVolumeNormalized_shape e v e1 hsv
        subst he1
        exact ⟨le_clamp _ 0 1, clamp_le _ 0 1 (by norm_num), hp0, hp1, hs0, hs1⟩
    by_cases hk2 : key = "volumePercent"
    · subst hk2
      rw [apply_volumePercent_eq]
      show storedInv (setVolumeFromPercent e v 100).controlValues
      unfold setVolumeFromPercent
      refine ⟨?_, ?_, hp0, hp1, hs0, hs1⟩
      · exact div_nonneg (le_clamp _ 0 100) (by norm_num)
      · rw [div_le_one (by norm_num : (0:ℚ) < 100)]
        exact clamp_le _ 0 100 (by norm_num)
    by_cases hk3 : key = "pan"
    · subst hk3
      rw [apply_pan_eq]
      cases hv : jsToNum? v with
      | none =>
        exact ⟨hv0, hv1, hp0, hp1, hs0, hs1⟩
      | some n =>
        exact ⟨hv0, hv1, le_clamp _ (-1) 1, clamp_le _ (-1) 1 (by norm_num),
          hs0, hs1⟩
    by_cases hk4 : key = "tone"
    · subst hk4
      rw [apply_tone_eq]
      cases hv : jsToNum? v with
      | none =>
        exact ⟨hv0, hv1, hp0, hp1, hs0, hs1⟩
      | some n =>
        refine ⟨hv0, hv1, hp0, hp1, ?_, ?_⟩
        · have h1 : (-24 : ℤ) ≤ jsRound (clamp n (-24) 24) :=
            le_jsRound (-24) _ (by push_cast; exact le_clamp n (-24) 24)
          have h2 : ((-24 : ℤ) : ℚ) ≤ (jsRound (clamp n (-24) 24) : ℚ) := by
            exact_mod_cast h1
          push_cast at h2 ⊢
          linarith
        · have h1 : jsRound (clamp n (-24) 24) ≤ (24 : ℤ) :=
            jsRound_le 24 _ (by push_cast; exact clamp_le n (-24) 24 (by norm_num))
          have h2 : (jsRound (clamp n (-24) 24) : ℚ) ≤ ((24 : ℤ) : ℚ) := by
            exact_mod_cast h1
          push_cast at h2 ⊢
          linarith
    by_cases hk5 : key = "semitones"
    · subst hk5
      rw [apply_semitones_eq]
      cases hv : jsToNum? v with
      | none =>
        exact ⟨hv0, hv1, hp0, hp1, hs0, hs1⟩
      | some n =>
        refine ⟨hv0, hv1, hp0, hp1, ?_, ?_⟩
        · have h1 : (-48 : ℤ) ≤ jsRound (clamp n (-48) 48) :=
            le_jsRound (-48) _ (by push_cast; exact le_clamp n (-48) 48)
          have h2 : ((-48 : ℤ) : ℚ) ≤ (jsRound (clamp n (-48) 48) : ℚ) := by
            exact_mod_cast h1
          push_cast at h2 ⊢
          linarith
        · have h1 : jsRound (clamp n (-48) 48) ≤ (48 : ℤ) :=
            jsRound_le 48 _ (by push_cast; exact clamp_le n (-48) 48 (by norm_num))
          have h2 : (jsRound (clamp n (-48) 48) : ℚ) ≤ ((48 : ℤ) : ℚ) := by
            exact_mod_cast h1
          push_cast at h2 ⊢
          linarith
    · rw [apply_generic_eq e key v now hk0 hk1 hk2 hk3 hk4 hk5]
      obtain ⟨hV, hP, hS⟩ := applyGeneric_preserves_vps e key v now hk1 hk3 hk5
      unfold storedInv
      rw [hV, hP, hS]
      exact ⟨hv0, hv1, hp0, hp1, hs0, hs1⟩
  · intro m hm
    rcases emissions_shape e key v now with hsh | hsh | hsh
    · rw [hsh] at hm
      simp [schedulesOf] at hm
    · rw [hsh, schedulesOf_controls] at hm
      have hms : (controlsChanged (applyIncomingSet e key v now).1 true none
          now).schedule = some m := by
        cases hsch : (controlsChanged (applyIncomingSet e key v now).1 true none
            now).schedule with
        | none => rw [hsch] at hm; simp at hm
        | some m2 =>
          rw [hsch] at hm
          simp at hm
          rw [hm]
      obtain ⟨-, hr, hsem, hton, hfs, hfb, -, -, -⟩ :=
        controlsChanged_schedule_char _ _ _ _ _ hms
      rw [hr, hsem, hton, hfs, hfb]
      refine ⟨le_clamp _ _ _, clamp_le _ _ _ (by norm_num),
        le_clamp _ _ _, clamp_le _ _ _ (by norm_num),
        le_clamp _ _ _, clamp_le _ _ _ (by norm_num),
        le_clamp _ _ _, clamp_le _ _ _ (by norm_num),
        le_clamp _ _ _, clamp_le _ _ _ (by norm_num)⟩
    · rw [hsh, schedulesOf_configureList] at hm
      simp at hm

/-- C6 witness: the storage invariant at a concrete slot and mutation. -/
theorem stored_and_scheduled_ranges_witness :
    storedInv (applyIncomingSet engineA "rate" (.num 100)
        now0).1.controlValues := by
  exact (stored_and_scheduled_ranges engineA "rate" (.num 100) now0
    (by norm_num [storedInv, engineA, createEngine, controlDefaults])).1

/-- C7: for every non-special-cased key, a numeric control/config target
rejects non-finite input as a complete no-op, a boolean target stores the
truthiness of the value, and an unknown key is ignored with no state
change. -/
theorem generic_key_semantics (e : Engine) (key : String) (v : JSValue)
    (now : AudioNow) (h0 : key ≠ "") (h1 : key ≠ "volume")
    (h2 : key ≠ "volumePercent") (h3 : key ≠ "pan") (h4 : key ≠ "tone")
    (h5 : key ≠ "semitones") :
    (∀ q, controlGet? e.controlValues key = some (.numCur q) →
        jsToNum? v = none → applyIncomingSet e key v now = (e, []))
    ∧ (∀ q, configGet? e.configValues key = some (.numCur q) →
        jsToNum? v = none → applyIncomingSet e key v now = (e, []))
    ∧ (∀ b, controlGet? e.controlValues key = some (.boolCur b) →
        (applyIncomingSet e key v now).1 = { e with
          controlValues := controlSetBool e.controlValues key (truthy v) })
    ∧ (∀ b, configGet? e.configValues key = some (.boolCur b) →
        (applyIncomingSet e key v now).1 = { e with
          configValues := configSetBool e.configValues key (truthy v) })
    ∧ (controlGet? e.controlValues key = none →
        configGet? e.configValues key = none →
        applyIncomingSet e key v now = (e, [])) := by
  rw [apply_generic_eq e key v now h0 h1 h2 h3 h4 h5]
  refine ⟨?_, ?_, ?_, ?_, ?_⟩
  · intro q hg hv
    simp [applyGeneric, hg, hv]
  · intro q hg hv
    have hc := controlGet?_eq_none_of_config e.controlValues e.configValues key
      _ hg
    simp [applyGeneric, hc, hg, hv]
  · intro b hg
    simp [applyGeneric, hg]
  · intro b hg
    have hc := controlGet?_eq_none_of_config e.controlValues e.configValues key
      _ hg
    simp [applyGeneric, hc, hg]
  · intro hgc hgf
    simp [applyGeneric, hgc, hgf]

/-- C7 witness: concrete instances — `rate` with `NaN` is a no-op,
an unknown key is a no-op, `active` coerces `0` to `false`. -/
theorem generic_key_semantics_witness :
    applyIncomingSet engineA "rate" .nanV now0 = (engineA, [])
    ∧ applyIncomingSet engineA "nosuchkey" (.num 5) now0 = (engineA, [])
    ∧ (applyIncomingSet engineA "active" (.num 0) now0).1
        = { engineA with
            controlValues := controlSetBool engineA.controlValues "active"
              (truthy (.num 0)) } := by
  have ha := generic_key_semantics engineA "rate" .nanV now0 (by decide)
    (by decide) (by decide) (by decide) (by decide) (by decide)
  have hb := generic_key_semantics engineA "nosuchkey" (.num 5) now0 (by decide)
    (by decide) (by decide) (by decide) (by decide) (by decide)
  have hc := generic_key_semantics engineA "active" (.num 0) now0 (by decide)
    (by decide) (by decide) (by decide) (by decide) (by decide)
  exact ⟨ha.1 (1/1000) rfl rfl, hb.2.2.2.2 rfl rfl, hc.2.2.1 true rfl⟩

theorem emissions_nil_state_unchanged (e : Engine) (key : String) (v : JSValue)
    (now : AudioNow) (hs : e.stretchLoaded = true) :
    (applyIncomingSet e key v now).2 = [] → (applyIncomingSet e key v now).1 = e := by
  unfold applyIncomingSet applyGeneric
  repeat' split
  all_goals intro hnil
  all_goals first
  | rfl
  | (exfalso
     revert hnil
     simp [configChangedCall, hs])

/-- C9: every `controls` emission of `applyIncomingSet` ramps volume and the
two pan gains linearly over 30 ms from the currently-sounding value to the
new clamped target, and its `schedule` call (present whenever a stretch
node is loaded) carries an output timestamp 0.1 s ahead of the current
audio time — strictly in the future, never instantaneous; moreover, with a
stretch node loaded, a mutation that emits nothing left the state
untouched, so every accepted mutation does reach the audio engine. -/
theorem controls_emission_ramps_and_lead :
    (∀ (e : Engine) (key : String) (v : JSValue) (now : AudioNow)
        (o : ControlsOut),
      Emission.controls o ∈ (applyIncomingSet e key v now).2 →
      o.gainRamp = ⟨now.t, now.gainValue, now.t + 3/100,
          clamp (applyIncomingSet e key v now).1.controlValues.volume 0 1⟩
      ∧ o.panLeftRamp = ⟨now.t, now.panLeftValue, now.t + 3/100,
          (1 - clamp (applyIncomingSet e key v now).1.controlValues.pan (-1) 1)
            * (1/2)⟩
      ∧ o.panRightRamp = ⟨now.t, now.panRightValue, now.t + 3/100,
          (1 + clamp (applyIncomingSet e key v now).1.controlValues.pan (-1) 1)
            * (1/2)⟩
      ∧ (∀ m, o.schedule = some m →
          m.outputTime = now.t + 1/10 ∧ now.t < m.outputTime)
      ∧ (e.stretchLoaded = true → o.schedule.isSome = true))
    ∧ (∀ (e : Engine) (key : String) (v : JSValue) (now : AudioNow),
        e.stretchLoaded = true → (applyIncomingSet e key v now).2 = [] →
        (applyIncomingSet e key v now).1 = e) := by
  constructor
  · intro e key v now o hmem
    rcases emissions_shape e key v now with hsh | hsh | hsh
    · rw [hsh] at hmem
      simp at hmem
    · rw [hsh] at hmem
      have ho : o = controlsChanged (applyIncomingSet e key v now).1 true none
          now := by
        simpa using hmem
      subst ho
      refine ⟨controlsChanged_gainRamp _ _ _ _, controlsChanged_panLeftRamp _ _ _ _,
        controlsChanged_panRightRamp _ _ _ _, ?_, ?_⟩
      · intro m hm
        have hout := (controlsChanged_schedule_char _ _ _ _ _ hm).2.2.2.2.2.2.2.2
        rw [hout]
        norm_num
      · intro hs
        apply controlsChanged_schedule_isSome
        rw [(applyIncomingSet_preserves e key v now).1]
        exact hs
    · rw [hsh] at hmem
      exact absurd hmem (controls_not_mem_configureList _ _)
  · exact fun e key v now hs => emissions_nil_state_unchanged e key v now hs

/-- C9 witness: a concrete `rate` mutation on a loaded slot, whose emission
carries the 30 ms gain ramp and a schedule call 0.1 s ahead; and a rejected
(`NaN`) volume mutation that emits nothing and changes nothing. -/
theorem controls_emission_witness :
    (controlsChanged ((applyIncomingSet engineAready "rate" (.num 1) now0).1)
        true none now0).gainRamp
      = ⟨now0.t, now0.gainValue, now0.t + 3/100,
          clamp (applyIncomingSet engineAready "rate"
            (.num 1) now0).1.controlValues.volume 0 1⟩
    ∧ (controlsChanged ((applyIncomingSet engineAready "rate" (.num 1) now0).1)
        true none now0).schedule.isSome = true
    ∧ (applyIncomingSet engineAready "volume" .nanV now0).1 = engineAready := by
  have hmem : Emission.controls (controlsChanged
      ((applyIncomingSet engineAready "rate" (.num 1) now0).1) true none now0)
      ∈ (applyIncomingSet engineAready "rate" (.num 1) now0).2 := by
    exact List.mem_singleton.mpr rfl
  have h := controls_emission_ramps_and_lead.1 engineAready "rate" (.num 1) now0
    _ hmem
  have h2 := controls_emission_ramps_and_lead.2 engineAready "volume" .nanV now0
    rfl rfl
  exact ⟨h.1, h.2.2.2.2 rfl, h2⟩

/-- C10: a `set` message whose engine tag is missing, non-string, or does
not name a running engine slot is not dropped: it resolves to the default
engine (the first requested slot, always present in the engine map) and
mutates exactly that one engine, leaving every other slot untouched. -/
theorem set_without_engine_tag_goes_to_default (p : BootParams)
    (tag : Option JSValue) (key : String) (v : JSValue) (now : AudioNow)
    (h : ∀ s, tag = some (JSValue.str s) →
        ((engineKeys (mkEngines (getRequestedEngineSlots p))).contains s)
          = false) :
    resolveSetEngineId (mkEngines (getRequestedEngineSlots p))
        (defaultEngineId (getRequestedEngineSlots p)) tag
      = defaultEngineId (getRequestedEngineSlots p)
    ∧ ((engineKeys (mkEngines (getRequestedEngineSlots p))).contains
        (defaultEngineId (getRequestedEngineSlots p))) = true
    ∧ handleSetMessage (mkEngines (getRequestedEngineSlots p))
        (defaultEngineId (getRequestedEngineSlots p)) tag key v now
      = (mkEngines (getRequestedEngineSlots p)).map (fun pr =>
          if pr.1 = defaultEngineId (getRequestedEngineSlots p)
          then (pr.1, (applyIncomingSet pr.2 key v now).1) else pr)
    ∧ (∀ pr ∈ mkEngines (getRequestedEngineSlots p),
        pr.1 ≠ defaultEngineId (getRequestedEngineSlots p) →
        pr ∈ handleSetMessage (mkEngines (getRequestedEngineSlots p))
          (defaultEngineId (getRequestedEngineSlots p)) tag key v now) := by
  have hres : resolveSetEngineId (mkEngines (getRequestedEngineSlots p))
      (defaultEngineId (getRequestedEngineSlots p)) tag
      = defaultEngineId (getRequestedEngineSlots p) := by
    cases tag with
    | none => rfl
    | some jv =>
      cases jv with
      | str s =>
        show (if (engineKeys (mkEngines (getRequestedEngineSlots p))).contains s
              = true
            then s else defaultEngineId (getRequestedEngineSlots p))
          = defaultEngineId (getRequestedEngineSlots p)
        rw [h s rfl]
        rfl
      | num q => rfl
      | nanV => rfl
      | boolV b => rfl
  have hmsg : handleSetMessage (mkEngines (getRequestedEngineSlots p))
      (defaultEngineId (getRequestedEngineSlots p)) tag key v now
      = (mkEngines (getRequestedEngineSlots p)).map (fun pr =>
          if pr.1 = defaultEngineId (getRequestedEngineSlots p)
          then (pr.1, (applyIncomingSet pr.2 key v now).1) else pr) := by
    unfold handleSetMessage
    rw [hres]
  refine ⟨hres, ?_, hmsg, ?_⟩
  · obtain ⟨s0, rest, hcons⟩ :
        ∃ s0 rest, getRequestedEngineSlots p = s0 :: rest := by
      cases hsl : getRequestedEngineSlots p with
      | nil => exact absurd hsl (getRequestedEngineSlots_ne_nil p)
      | cons s0 rest => exact ⟨s0, rest, rfl⟩
    have hs0AB : s0 = "A" ∨ s0 = "B" :=
      mem_getRequestedEngineSlots p s0 (hcons ▸ List.mem_cons_self s0 rest)
    have hd : defaultEngineId (getRequestedEngineSlots p) = s0 := by
      rw [hcons]
      rcases hs0AB with h0 | h0 <;> subst h0 <;> rfl
    have hc : (getRequestedEngineSlots p).contains s0 = true := by
      rw [hcons]
      simp
    rw [hd]
    unfold mkEngines
    rcases hs0AB with h0 | h0 <;> subst h0
    · rw [hc]
      cases hB : (getRequestedEngineSlots p).contains "B" <;> simp [engineKeys]
    · rw [hc]
      cases hA : (getRequestedEngineSlots p).contains "A" <;> simp [engineKeys]
  · intro pr hpr hne
    rw [hmsg]
    refine List.mem_map.mpr ⟨pr, hpr, ?_⟩
    rw [if_neg hne]

/-- C10 witness: with no boot parameters (two engines `A`, `B`, default
`A`) a `set` with a missing engine tag resolves to `A`, which is present,
and slot `B` is untouched. -/
theorem set_without_engine_tag_witness :
    resolveSetEngineId (mkEngines (getRequestedEngineSlots ⟨none, none, none⟩))
        (defaultEngineId (getRequestedEngineSlots ⟨none, none, none⟩)) none
      = defaultEngineId (getRequestedEngineSlots ⟨none, none, none⟩)
    ∧ (engineKeys (mkEngines (getRequestedEngineSlots ⟨none, none, none⟩))).contains
        (defaultEngineId (getRequestedEngineSlots ⟨none, none, none⟩)) = true
    ∧ ("B", createEngine "B") ∈ handleSetMessage
        (mkEngines (getRequestedEngineSlots ⟨none, none, none⟩))
        (defaultEngineId (getRequestedEngineSlots ⟨none, none, none⟩))
        none "volume" JSValue.nanV now0 := by
  have h := set_without_engine_tag_goes_to_default ⟨none, none, none⟩ none
    "volume" JSValue.nanV now0 (fun s hs => Option.noConfusion hs)
  refine ⟨h.1, h.2.1, ?_⟩
  apply h.2.2.2 ("B", createEngine "B")
  · simp [getRequestedEngineSlots, fallbackSlots, jsOrDefaultStr, mkEngines]
  · simp [getRequestedEngineSlots, fallbackSlots, jsOrDefaultStr, defaultEngineId]

end Bauklank
